import Mathlib

/-!
Verification development for the MovAssist exercise-analysis engine.

This file gives a shallow embedding of the repetition state machine and
form-evaluation engine found in `src/core/exercise.py` (classes
`BaseExercise`, `Squat`, `Pushup`), the angle computation of
`src/utils.py`, the summary statistics of `src/exercise.py`
(`ExerciseSummary`), and the default configuration of
`src/ui/configwindow.py`, together with theorems settling the frozen
claims about this code.

Modelling conventions:
* Python floats are modelled by an arbitrary `LinearOrderedField α`
  (instantiated at `ℚ` for executable traces and at `ℝ` where the
  trigonometric angle computation is involved).
* A Python `set` of error strings is modelled by a duplicate-free
  `List String` with membership-guarded insertion (`insertErr`).
* A Python `dict` is modelled by an association list; subscripting a
  missing key (a `KeyError`) is modelled by `Option`: `none` is a raised
  exception propagating out of the caller.
* Wall-clock side effects (`time.time()` feedback timestamps, file I/O,
  drawing) are outside the model; the boolean `set_feedback` flag is kept.
-/

/-- Posture state: Python strings "up" / "mid". -/
inductive PState where
  | up
  | mid
deriving DecidableEq, Repr

/-- A pose keypoint as consumed by the engine: planar position, relative
depth and a visibility confidence (mediapipe landmark fields). -/
structure Landmark (α : Type) where
  x : α
  y : α
  z : α
  visibility : α
deriving Repr

/-- `set.add` on a Python set of strings: insert if not already present. -/
def insertErr (es : List String) (e : String) : List String :=
  if e ∈ es then es else es ++ [e]

/-- A Python dict with string keys, as an association list. -/
def Dict (α : Type) : Type := List (String × α)

/-- Python `d[k]`: `none` models a raised `KeyError`. -/
def dget {α : Type} (d : Dict α) (k : String) : Option α :=
  match d.find? (fun p => p.1 = k) with
  | some p => some p.2
  | none => none

section Machine

variable {α : Type} [LinearOrderedField α]

/-- State of a `Squat` exercise instance: the mutable attributes set up in
`BaseExercise.__init__` and `Squat.__init__` that the analysis logic reads
and writes.  `min_hip_angle`/`min_ankle_angle` are unset in Python until
first written in `check_squat_form`; they are never read before being
written, so an arbitrary initial value (180) is used here. -/
structure SquatState (α : Type) where
  state : PState
  last_state : PState
  is_going_up : Bool
  rep_count : ℕ
  rep_completed : Bool
  rep_errors : List String
  reps_correct : ℕ
  reps_incorrect : ℕ
  set_feedback : Bool
  min_knee_angle : α
  lowest_knee_angle : α
  min_hip_angle : α
  min_ankle_angle : α
  knee_angles : List α
  hip_angles : List α
  ankle_angles : List α
deriving Repr, DecidableEq

/-- `Squat.STATE_THRESH` with all keys present (cf. `DEFAULT_CONFIG`). -/
structure SquatStateThresh (α : Type) where
  up : α
  mid : α
  depth : α

/-- `Squat.ANGLE_THRESHOLDS` with all keys present. -/
structure SquatAngleThresh (α : Type) where
  depth : α
  min_depth : α
  hip_min : α
  hip_max : α
  ankle_min : α

namespace Squat

/-- The freshly constructed `Squat` instance. -/
def init : SquatState α :=
  { state := .up
    last_state := .up
    is_going_up := true
    rep_count := 0
    rep_completed := false
    rep_errors := []
    reps_correct := 0
    reps_incorrect := 0
    set_feedback := false
    min_knee_angle := 180
    lowest_knee_angle := 180
    min_hip_angle := 180
    min_ankle_angle := 180
    knee_angles := []
    hip_angles := []
    ankle_angles := [] }

/-- `BaseExercise.clear_rep_errors` (as inherited by `Squat`). -/
def clear_rep_errors (s : SquatState α) : SquatState α :=
  if s.rep_completed then { s with rep_errors := [] } else s

/-- `BaseExercise.check_reps` (as inherited by `Squat`). -/
def check_reps (s : SquatState α) : SquatState α :=
  if s.rep_errors ≠ [] then { s with reps_incorrect := s.reps_incorrect + 1 }
  else { s with reps_correct := s.reps_correct + 1 }

/-- `Squat.update_squat_state` from `src/core/exercise.py`. -/
def update_squat_state (st : SquatStateThresh α) (s : SquatState α) (knee_angle : α) :
    SquatState α :=
  if s.state = .up ∧ knee_angle < st.mid then { s with state := .mid }
  else if s.state = .mid ∧ knee_angle > st.up then
    let s1 := if s.min_knee_angle < st.depth then { s with rep_completed := true } else s
    { s1 with
        state := .up
        knee_angles := s1.knee_angles ++ [s1.min_knee_angle]
        hip_angles := s1.hip_angles ++ [s1.min_hip_angle]
        ankle_angles := s1.ankle_angles ++ [s1.min_ankle_angle]
        min_knee_angle := 180 }
  else s

/-- The opening stanza of `Squat.check_squat_form`: track the running
minimum of the knee angle (with the hip/ankle angles at that minimum) and
derive `is_going_up`. -/
def track_min (s : SquatState α) (hip_angle knee_angle ankle_angle : α) : SquatState α :=
  if knee_angle < s.min_knee_angle then
    { s with
        min_knee_angle := knee_angle
        min_hip_angle := hip_angle
        min_ankle_angle := ankle_angle
        is_going_up := false }
  else if knee_angle > s.min_knee_angle then { s with is_going_up := true }
  else s

/-- `Squat.check_squat_form` from `src/core/exercise.py`; returns the
updated state and the `has_issues` flag. -/
def check_squat_form (st : SquatStateThresh α) (at_ : SquatAngleThresh α)
    (s : SquatState α) (hip_angle knee_angle ankle_angle : α) :
    SquatState α × Bool :=
  let s := track_min s hip_angle knee_angle ankle_angle
  if s.state = .mid ∧ knee_angle < st.depth then
    let r1 :=
      if hip_angle < at_.hip_min then
        ({ s with rep_errors := insertErr s.rep_errors "Maitain more upright position" }, true)
      else if hip_angle > at_.hip_max then
        ({ s with rep_errors := insertErr s.rep_errors "Bend forward slightly more" }, true)
      else (s, false)
    let r2 :=
      if ankle_angle < at_.ankle_min then
        ({ r1.1 with rep_errors := insertErr r1.1.rep_errors "Knees going too forward" }, true)
      else (r1.1, false)
    let r3 :=
      if knee_angle < at_.min_depth then
        ({ r2.1 with rep_errors := insertErr r2.1.rep_errors "Squat too deep" }, true)
      else (r2.1, false)
    (r3.1, r1.2 || r2.2 || r3.2)
  else if s.state = .mid ∧ s.is_going_up then
    if s.min_knee_angle > st.depth then
      ({ s with rep_errors := insertErr s.rep_errors "Squat not deep enough" }, true)
    else (s, false)
  else (s, false)

/-- `Squat.process_exercise` from `src/core/exercise.py` (the per-frame
logic after the angles have been computed; drawing omitted). -/
def process_exercise (st : SquatStateThresh α) (at_ : SquatAngleThresh α)
    (s : SquatState α) (hip_angle knee_angle ankle_angle : α) : SquatState α :=
  let s := update_squat_state st s knee_angle
  let s :=
    if s.state = .mid then
      let r := check_squat_form st at_ s hip_angle knee_angle ankle_angle
      if r.2 then { r.1 with set_feedback := true } else r.1
    else s
  let s :=
    if s.rep_completed ∧ s.last_state = .mid then
      let s := { s with rep_count := s.rep_count + 1 }
      let s := check_reps s
      { s with rep_completed := false }
    else s
  let s := { s with last_state := s.state }
  clear_rep_errors s

/-- Iterate `process_exercise` over a list of per-frame angle triples
`(hip, knee, ankle)`. -/
def run (st : SquatStateThresh α) (at_ : SquatAngleThresh α)
    (s : SquatState α) (frames : List (α × α × α)) : SquatState α :=
  frames.foldl (fun s f => process_exercise st at_ s f.1 f.2.1 f.2.2) s

end Squat

end Machine

/-- `DEFAULT_CONFIG["squat"]["STATE_THRESH"]` from `src/ui/configwindow.py`. -/
def squatStateDefaults (α : Type) [LinearOrderedField α] : SquatStateThresh α :=
  { up := 150, mid := 120, depth := 90 }

/-- `DEFAULT_CONFIG["squat"]["ANGLE_THRESHOLDS"]` from `src/ui/configwindow.py`. -/
def squatAngleDefaults (α : Type) [LinearOrderedField α] : SquatAngleThresh α :=
  { depth := 90, min_depth := 40, hip_min := 60, hip_max := 90, ankle_min := 80 }

section PushupMachine

variable {α : Type} [LinearOrderedField α]

/-- State of a `Pushup` exercise instance (mutable attributes of
`BaseExercise.__init__` plus `Pushup.__init__`).  `min_hip_angle` is unset
in Python until first written; it is never read before written. -/
structure PushupState (α : Type) where
  state : PState
  last_state : PState
  is_going_up : Bool
  rep_count : ℕ
  rep_completed : Bool
  rep_errors : List String
  reps_correct : ℕ
  reps_incorrect : ℕ
  set_feedback : Bool
  min_elbow_angle : α
  min_hip_angle : α
  elbow_angles : List α
  hip_angles : List α
deriving Repr, DecidableEq

/-- `Pushup.STATE_THRESH` with both keys present. -/
structure PushupStateThresh (α : Type) where
  up : α
  mid : α

/-- `Pushup.ANGLE_THRESHOLDS` with all keys present. -/
structure PushupAngleThresh (α : Type) where
  hip_low : α
  hip_high : α
  elbow_min : α

namespace Pushup

/-- The freshly constructed `Pushup` instance. -/
def init : PushupState α :=
  { state := .up
    last_state := .up
    is_going_up := true
    rep_count := 0
    rep_completed := false
    rep_errors := []
    reps_correct := 0
    reps_incorrect := 0
    set_feedback := false
    min_elbow_angle := 180
    min_hip_angle := 180
    elbow_angles := []
    hip_angles := [] }

/-- `BaseExercise.clear_rep_errors` (as inherited by `Pushup`). -/
def clear_rep_errors (s : PushupState α) : PushupState α :=
  if s.rep_completed then { s with rep_errors := [] } else s

/-- `BaseExercise.check_reps` (as inherited by `Pushup`). -/
def check_reps (s : PushupState α) : PushupState α :=
  if s.rep_errors ≠ [] then { s with reps_incorrect := s.reps_incorrect + 1 }
  else { s with reps_correct := s.reps_correct + 1 }

/-- `Pushup.update_pushup_state` from `src/core/exercise.py`: note that,
unlike the squat, `rep_completed` is set unconditionally at the Mid→Up
transition. -/
def update_pushup_state (st : PushupStateThresh α) (s : PushupState α)
    (elbow_angle : α) : PushupState α :=
  if s.state = .up ∧ elbow_angle < st.mid then { s with state := .mid }
  else if s.state = .mid ∧ elbow_angle > st.up then
    { s with
        state := .up
        rep_completed := true
        elbow_angles := s.elbow_angles ++ [s.min_elbow_angle]
        hip_angles := s.hip_angles ++ [s.min_hip_angle]
        min_elbow_angle := 180 }
  else s

/-- The opening stanza of `Pushup.check_pushup_form`: track the running
minimum of the elbow angle (with the hip angle at that minimum) and derive
`is_going_up`. -/
def track_min (s : PushupState α) (elbow_angle hip_angle : α) : PushupState α :=
  if elbow_angle < s.min_elbow_angle then
    { s with
        min_elbow_angle := elbow_angle
        min_hip_angle := hip_angle
        is_going_up := false }
  else if elbow_angle > s.min_elbow_angle then { s with is_going_up := true }
  else s

/-- `Pushup.check_pushup_form` from `src/core/exercise.py`.  The second
branch (`elif self.state == "mid" and self.is_going_up`) is kept exactly
as in the source; it is shadowed by the preceding `if self.state == "mid"`
branch and hence unreachable. -/
def check_pushup_form (at_ : PushupAngleThresh α) (s : PushupState α)
    (elbow_angle hip_angle : α) : PushupState α × Bool :=
  let s := track_min s elbow_angle hip_angle
  if s.state = .mid then
    let r1 :=
      if elbow_angle < at_.elbow_min then
        ({ s with rep_errors := insertErr s.rep_errors "Too deep" }, true)
      else (s, false)
    let r2 :=
      if hip_angle < at_.hip_high then
        ({ r1.1 with rep_errors := insertErr r1.1.rep_errors "Hip too high" }, true)
      else if hip_angle > at_.hip_low then
        ({ r1.1 with rep_errors := insertErr r1.1.rep_errors "Hip too low" }, true)
      else (r1.1, false)
    (r2.1, r1.2 || r2.2)
  else if s.state = .mid ∧ s.is_going_up then
    if s.min_elbow_angle > 90 then
      ({ s with rep_errors := insertErr s.rep_errors "Not deep enough" }, true)
    else (s, false)
  else (s, false)

/-- `Pushup.process_exercise` from `src/core/exercise.py` (drawing
omitted). -/
def process_exercise (st : PushupStateThresh α) (at_ : PushupAngleThresh α)
    (s : PushupState α) (elbow_angle hip_angle : α) : PushupState α :=
  let s := update_pushup_state st s elbow_angle
  let s :=
    if s.state = .mid then
      let r := check_pushup_form at_ s elbow_angle hip_angle
      if r.2 then { r.1 with set_feedback := true } else r.1
    else s
  let s :=
    if s.rep_completed ∧ s.last_state = .mid then
      let s := { s with rep_count := s.rep_count + 1 }
      let s := check_reps s
      { s with rep_completed := false }
    else s
  let s := { s with last_state := s.state }
  clear_rep_errors s

end Pushup

end PushupMachine

/-- `DEFAULT_CONFIG["pushup"]["STATE_THRESH"]` from `src/ui/configwindow.py`. -/
def pushupStateDefaults (α : Type) [LinearOrderedField α] : PushupStateThresh α :=
  { up := 150, mid := 95 }

/-- `DEFAULT_CONFIG["pushup"]["ANGLE_THRESHOLDS"]` from `src/ui/configwindow.py`. -/
def pushupAngleDefaults (α : Type) [LinearOrderedField α] : PushupAngleThresh α :=
  { hip_low := 190, hip_high := 160, elbow_min := 50 }

section Validation

variable {α : Type} [LinearOrderedField α]

/-- `BaseExercise.validate_required_landmarks` from `src/core/exercise.py`.
`required` is the result of `get_required_landmarks`: `none` models the
Python `None` returned when the body direction is undetermined, and a
missing list entry (`landmarks[i]?` = `none`) models the exception caught
by the `except` clause, which also returns `False`. -/
def validate_required_landmarks (landmarks : List (Landmark α))
    (required : Option (List ℕ)) : Bool :=
  match required with
  | none => false
  | some [] => false
  | some req =>
      req.all fun i =>
        match landmarks[i]? with
        | none => false
        | some lm => !(lm.visibility < 0.5)

/-- The analyzable-frame part of `BaseExercise.process_frame` for a squat:
when landmark validation fails the method returns before
`process_exercise`, leaving the exercise state untouched.  The joint
angles the frame would produce are passed explicitly. -/
def Squat.process_frame (st : SquatStateThresh α) (at_ : SquatAngleThresh α)
    (landmarks : List (Landmark α)) (required : Option (List ℕ))
    (s : SquatState α) (hip_angle knee_angle ankle_angle : α) : SquatState α :=
  if validate_required_landmarks landmarks required then
    Squat.process_exercise st at_ s hip_angle knee_angle ankle_angle
  else s

end Validation

section DictLayer

variable {α : Type} [LinearOrderedField α]

namespace Squat

/-- `Squat.update_squat_state` with `STATE_THRESH` accessed as the Python
dict it actually is, mirroring the source's subscripting and
short-circuit evaluation order.  `none` models an uncaught `KeyError`. -/
def update_squat_state_dict (ST : Dict α) (s : SquatState α) (knee_angle : α) :
    Option (SquatState α) :=
  match s.state with
  | .up =>
      match dget ST "mid" with
      | none => none
      | some m => if knee_angle < m then some { s with state := .mid } else some s
  | .mid =>
      match dget ST "up" with
      | none => none
      | some u =>
          if knee_angle > u then
            match dget ST "depth" with
            | none => none
            | some d =>
                let s1 :=
                  if s.min_knee_angle < d then { s with rep_completed := true } else s
                some { s1 with
                        state := .up
                        knee_angles := s1.knee_angles ++ [s1.min_knee_angle]
                        hip_angles := s1.hip_angles ++ [s1.min_hip_angle]
                        ankle_angles := s1.ankle_angles ++ [s1.min_ankle_angle]
                        min_knee_angle := 180 }
          else some s

/-- `Squat.check_squat_form` with dict threshold access (see
`update_squat_state_dict`). -/
def check_squat_form_dict (ST AT : Dict α) (s : SquatState α)
    (hip_angle knee_angle ankle_angle : α) : Option (SquatState α × Bool) :=
  let s := track_min s hip_angle knee_angle ankle_angle
  if s.state = .mid then
    match dget ST "depth" with
    | none => none
    | some d =>
        if knee_angle < d then
          match dget AT "hip_min" with
          | none => none
          | some hmin =>
              let r1? : Option (SquatState α × Bool) :=
                if hip_angle < hmin then
                  some ({ s with
                      rep_errors := insertErr s.rep_errors "Maitain more upright position" },
                    true)
                else
                  match dget AT "hip_max" with
                  | none => none
                  | some hmax =>
                      if hip_angle > hmax then
                        some ({ s with
                            rep_errors := insertErr s.rep_errors "Bend forward slightly more" },
                          true)
                      else some (s, false)
              match r1? with
              | none => none
              | some r1 =>
                  match dget AT "ankle_min" with
                  | none => none
                  | some amin =>
                      let r2 :=
                        if ankle_angle < amin then
                          ({ r1.1 with
                              rep_errors := insertErr r1.1.rep_errors "Knees going too forward" },
                            true)
                        else (r1.1, false)
                      match dget AT "min_depth" with
                      | none => none
                      | some md =>
                          let r3 :=
                            if knee_angle < md then
                              ({ r2.1 with
                                  rep_errors := insertErr r2.1.rep_errors "Squat too deep" },
                                true)
                            else (r2.1, false)
                          some (r3.1, r1.2 || r2.2 || r3.2)
        else if s.is_going_up then
          match dget ST "depth" with
          | none => none
          | some d2 =>
              if s.min_knee_angle > d2 then
                some ({ s with
                    rep_errors := insertErr s.rep_errors "Squat not deep enough" }, true)
              else some (s, false)
        else some (s, false)
  else some (s, false)

/-- `Squat.process_exercise` with dict threshold access: a `KeyError`
raised by any rule aborts the whole frame (`none`). -/
def process_exercise_dict (ST AT : Dict α) (s : SquatState α)
    (hip_angle knee_angle ankle_angle : α) : Option (SquatState α) :=
  match update_squat_state_dict ST s knee_angle with
  | none => none
  | some s =>
      let s? : Option (SquatState α) :=
        if s.state = .mid then
          match check_squat_form_dict ST AT s hip_angle knee_angle ankle_angle with
          | none => none
          | some r => some (if r.2 then { r.1 with set_feedback := true } else r.1)
        else some s
      match s? with
      | none => none
      | some s =>
          let s :=
            if s.rep_completed ∧ s.last_state = .mid then
              let s := { s with rep_count := s.rep_count + 1 }
              let s := check_reps s
              { s with rep_completed := false }
            else s
          let s := { s with last_state := s.state }
          some (clear_rep_errors s)

end Squat

end DictLayer

/-- The dict behind `squatStateDefaults`, as handed out by
`ConfigManager.get_state_thresholds("Squat")` under `DEFAULT_CONFIG`. -/
def squatStateDict : Dict ℚ := [("up", 150), ("mid", 120), ("depth", 90)]

/-- The dict behind `squatAngleDefaults`, as handed out by
`ConfigManager.get_angle_thresholds("Squat")` under `DEFAULT_CONFIG`. -/
def squatAngleDict : Dict ℚ :=
  [("depth", 90), ("min_depth", 40), ("hip_min", 60), ("hip_max", 90), ("ankle_min", 80)]

/-- The four-quadrant arctangent over the reals, following the `numpy`
`arctan2(y, x)` convention used by `src/utils.py` (in particular
`arctan2(0, 0) = 0`); range `(-π, π]`. -/
noncomputable def atan2 (y x : ℝ) : ℝ :=
  if 0 < x then Real.arctan (y / x)
  else if x < 0 then
    if 0 ≤ y then Real.arctan (y / x) + Real.pi
    else Real.arctan (y / x) - Real.pi
  else
    if 0 < y then Real.pi / 2
    else if y < 0 then -(Real.pi / 2)
    else 0

/-- `calculate_angle` from `src/utils.py`: difference of the two `atan2`
results for b→c and b→a, converted to degrees, absolute value, folded over
180° via `360 - angle`. -/
noncomputable def calculate_angle (a b c : ℝ × ℝ) : ℝ :=
  let radians := atan2 (c.2 - b.2) (c.1 - b.1) - atan2 (a.2 - b.2) (a.1 - b.1)
  let angle := |radians * 180 / Real.pi|
  if 180 < angle then 360 - angle else angle

/-- Per-angle descriptive statistics computed by
`ExerciseSummary.calculate_angle_statistics` (`numpy` mean/min/max/std,
with std the population standard deviation). -/
structure AngleStats where
  mean : ℝ
  min : ℝ
  max : ℝ
  std : ℝ

/-- Statistics of one nonempty sample list `h :: t`. -/
noncomputable def angleStats (h : ℝ) (t : List ℝ) : AngleStats :=
  let v := h :: t
  let mean := v.sum / v.length
  { mean := mean
    min := t.foldl Min.min h
    max := t.foldl Max.max h
    std := Real.sqrt ((v.map fun x => (x - mean) ^ 2).sum / v.length) }

/-- `ExerciseSummary.calculate_angle_statistics` from `src/exercise.py`:
for each tracked angle an entry is produced only when the sample list is
nonempty (the `if values:` guard); an empty list is skipped. -/
noncomputable def calculate_angle_statistics
    (angle_values : List (String × List ℝ)) : List (String × AngleStats) :=
  angle_values.filterMap fun p =>
    match p with
    | (_, []) => none
    | (n, h :: t) => some (n, angleStats h t)

section CoreSummary

variable {α : Type} [LinearOrderedField α]

/-- The `self.min_squat_angles` dict of `Squat` in `src/core/exercise.py`. -/
structure SquatMins (α : Type) where
  knee_angles : List α
  hip_angles : List α
  ankle_angles : List α

/-- One `average`/`min`/`max` group of `Squat.generate_summary`. -/
structure SummaryStat (α : Type) where
  average : α
  min : α
  max : α
deriving DecidableEq

/-- The `"angles"` section of the stats dict built by
`Squat.generate_summary`. -/
structure SquatSummaryAngles (α : Type) where
  knee : SummaryStat α
  hip : SummaryStat α
  ankle : SummaryStat α
deriving DecidableEq

/-- Python `a / n` with an integer denominator: `none` models a raised
`ZeroDivisionError`. -/
def pyDiv (a : α) (n : ℕ) : Option α :=
  if n = 0 then none else some (a / (n : α))

/-- Python `min(l)`: `none` models the `ValueError` raised on an empty
list. -/
def pyMin (l : List α) : Option α :=
  match l with
  | [] => none
  | h :: t => some (t.foldl Min.min h)

/-- Python `max(l)`: `none` models the `ValueError` raised on an empty
list. -/
def pyMax (l : List α) : Option α :=
  match l with
  | [] => none
  | h :: t => some (t.foldl Max.max h)

/-- The `"angles"` statistics computed by `Squat.generate_summary` in
`src/core/exercise.py` (file I/O and timestamps omitted).  The guard
`if self.min_squat_angles:` in the source tests the dict of three lists,
which is always non-empty, so it is always taken; the per-list
`sum(...) / len(...)` then divides by zero when a list is empty. -/
def Squat.generate_summary_angles (m : SquatMins α) : Option (SquatSummaryAngles α) := do
  let kavg ← pyDiv m.knee_angles.sum m.knee_angles.length
  let kmin ← pyMin m.knee_angles
  let kmax ← pyMax m.knee_angles
  let havg ← pyDiv m.hip_angles.sum m.hip_angles.length
  let hmin ← pyMin m.hip_angles
  let hmax ← pyMax m.hip_angles
  let aavg ← pyDiv m.ankle_angles.sum m.ankle_angles.length
  let amin ← pyMin m.ankle_angles
  let amax ← pyMax m.ankle_angles
  pure ⟨⟨kavg, kmin, kmax⟩, ⟨havg, hmin, hmax⟩, ⟨aavg, amin, amax⟩⟩

end CoreSummary

section SquatLemmas

variable {α : Type} [LinearOrderedField α]
variable {st : SquatStateThresh α} {at_ : SquatAngleThresh α}

lemma update_noop (s : SquatState α) (knee : α)
    (hs : s.state = .mid) (hk : ¬ st.up < knee) :
    Squat.update_squat_state st s knee = s := by
  simp [Squat.update_squat_state, hs, hk]

lemma track_min_shape (s : SquatState α) (hip knee ankle : α) :
    ∃ gu mh ma,
      Squat.track_min s hip knee ankle =
        { s with
            is_going_up := gu
            min_knee_angle := min s.min_knee_angle knee
            min_hip_angle := mh
            min_ankle_angle := ma } := by
  unfold Squat.track_min
  rcases lt_trichotomy knee s.min_knee_angle with h | h | h
  · rw [if_pos h, min_eq_right h.le]
    exact ⟨_, _, _, rfl⟩
  · rw [if_neg (by simp [h]), if_neg (by simp [h]), h, min_self]
    exact ⟨s.is_going_up, s.min_hip_angle, s.min_ankle_angle, rfl⟩
  · rw [if_neg (not_lt.2 h.le), if_pos h, min_eq_left h.le]
    exact ⟨_, _, _, rfl⟩

set_option maxHeartbeats 1000000 in
lemma csf_shape (s : SquatState α) (hip knee ankle : α) :
    ∃ gu mh ma es,
      (Squat.check_squat_form st at_ s hip knee ankle).1 =
        { s with
            is_going_up := gu
            min_knee_angle := min s.min_knee_angle knee
            min_hip_angle := mh
            min_ankle_angle := ma
            rep_errors := es } := by
  obtain ⟨gu, mh, ma, htm⟩ := track_min_shape s hip knee ankle
  simp only [Squat.check_squat_form, htm]
  split_ifs <;> exact ⟨_, _, _, _, rfl⟩

lemma process_mid_step (s : SquatState α) (hip knee ankle : α)
    (hs : s.state = .mid) (hc : s.rep_completed = false) (hk : ¬ st.up < knee) :
    ∃ gu mh ma es fb,
      Squat.process_exercise st at_ s hip knee ankle =
        { s with
            last_state := .mid
            is_going_up := gu
            min_knee_angle := min s.min_knee_angle knee
            min_hip_angle := mh
            min_ankle_angle := ma
            rep_errors := es
            set_feedback := fb } := by
  have hu : Squat.update_squat_state st s knee = s := update_noop s knee hs hk
  obtain ⟨gu, mh, ma, es, hcsf⟩ := @csf_shape α _ st at_ s hip knee ankle
  cases hfb : (Squat.check_squat_form st at_ s hip knee ankle).2
  · refine ⟨gu, mh, ma, es, s.set_feedback, ?_⟩
    simp [Squat.process_exercise, hu, hcsf, hfb, hs, hc, Squat.clear_rep_errors]
  · refine ⟨gu, mh, ma, es, true, ?_⟩
    simp [Squat.process_exercise, hu, hcsf, hfb, hs, hc, Squat.clear_rep_errors]

lemma process_entry_step (s : SquatState α) (hip knee ankle : α)
    (hs : s.state = .up) (hc : s.rep_completed = false) (hk : knee < st.mid) :
    ∃ gu mh ma es fb,
      Squat.process_exercise st at_ s hip knee ankle =
        { s with
            state := .mid
            last_state := .mid
            is_going_up := gu
            min_knee_angle := min s.min_knee_angle knee
            min_hip_angle := mh
            min_ankle_angle := ma
            rep_errors := es
            set_feedback := fb } := by
  have hu : Squat.update_squat_state st s knee = { s with state := .mid } := by
    simp [Squat.update_squat_state, hs, hk]
  obtain ⟨gu, mh, ma, es, hcsf⟩ :=
    @csf_shape α _ st at_ ({ s with state := .mid }) hip knee ankle
  simp only [hc] at hu hcsf
  cases hfb : (Squat.check_squat_form st at_
      ({ s with state := .mid, rep_completed := false }) hip knee ankle).2
  · refine ⟨gu, mh, ma, es, s.set_feedback, ?_⟩
    simp [Squat.process_exercise, hu, hcsf, hfb, hc, Squat.clear_rep_errors]
  · refine ⟨gu, mh, ma, es, true, ?_⟩
    simp [Squat.process_exercise, hu, hcsf, hfb, hc, Squat.clear_rep_errors]

lemma process_exit_incomplete (s : SquatState α) (hip knee ankle : α)
    (hs : s.state = .mid) (hc : s.rep_completed = false) (hk : st.up < knee)
    (hd : ¬ s.min_knee_angle < st.depth) :
    Squat.process_exercise st at_ s hip knee ankle =
      { s with
          state := .up
          last_state := .up
          min_knee_angle := 180
          knee_angles := s.knee_angles ++ [s.min_knee_angle]
          hip_angles := s.hip_angles ++ [s.min_hip_angle]
          ankle_angles := s.ankle_angles ++ [s.min_ankle_angle] } := by
  have hu : Squat.update_squat_state st s knee =
      { s with
          state := .up
          min_knee_angle := 180
          knee_angles := s.knee_angles ++ [s.min_knee_angle]
          hip_angles := s.hip_angles ++ [s.min_hip_angle]
          ankle_angles := s.ankle_angles ++ [s.min_ankle_angle] } := by
    simp [Squat.update_squat_state, hs, hk, hd]
  simp [Squat.process_exercise, hu, hc, Squat.clear_rep_errors]

lemma process_exit_complete (s : SquatState α) (hip knee ankle : α)
    (hs : s.state = .mid) (hl : s.last_state = .mid)
    (hk : st.up < knee) (hd : s.min_knee_angle < st.depth) :
    Squat.process_exercise st at_ s hip knee ankle =
      { s with
          state := .up
          last_state := .up
          min_knee_angle := 180
          knee_angles := s.knee_angles ++ [s.min_knee_angle]
          hip_angles := s.hip_angles ++ [s.min_hip_angle]
          ankle_angles := s.ankle_angles ++ [s.min_ankle_angle]
          rep_count := s.rep_count + 1
          reps_correct := if s.rep_errors = [] then s.reps_correct + 1 else s.reps_correct
          reps_incorrect := if s.rep_errors = [] then s.reps_incorrect else s.reps_incorrect + 1
          rep_completed := false } := by
  have hu : Squat.update_squat_state st s knee =
      { s with
          state := .up
          rep_completed := true
          min_knee_angle := 180
          knee_angles := s.knee_angles ++ [s.min_knee_angle]
          hip_angles := s.hip_angles ++ [s.min_hip_angle]
          ankle_angles := s.ankle_angles ++ [s.min_ankle_angle] } := by
    simp [Squat.update_squat_state, hs, hk, hd]
  by_cases he : s.rep_errors = [] <;>
    simp [Squat.process_exercise, hu, hl, Squat.check_reps, Squat.clear_rep_errors, he]

lemma update_shape (s : SquatState α) (knee : α) :
    ∃ stt rc mk ka ha aa,
      Squat.update_squat_state st s knee =
        { s with
            state := stt
            rep_completed := rc
            min_knee_angle := mk
            knee_angles := ka
            hip_angles := ha
            ankle_angles := aa } := by
  simp only [Squat.update_squat_state]
  split_ifs <;> exact ⟨_, _, _, _, _, _, rfl⟩

set_option maxHeartbeats 1000000 in
lemma counts_step (s : SquatState α) (hip knee ankle : α) :
    ∃ k, k ≤ 1 ∧
      (Squat.process_exercise st at_ s hip knee ankle).rep_count = s.rep_count + k ∧
      (Squat.process_exercise st at_ s hip knee ankle).reps_correct
          + (Squat.process_exercise st at_ s hip knee ankle).reps_incorrect
        = s.reps_correct + s.reps_incorrect + k := by
  obtain ⟨stt, rc, mk, ka, ha, aa, hu⟩ := @update_shape α _ st s knee
  obtain ⟨gu, mh, ma, es, hcsf⟩ := @csf_shape α _ st at_
    ({ s with
        state := stt
        rep_completed := rc
        min_knee_angle := mk
        knee_angles := ka
        hip_angles := ha
        ankle_angles := aa }) hip knee ankle
  simp only [Squat.process_exercise, hu, hcsf, Squat.check_reps, Squat.clear_rep_errors]
  split_ifs
  all_goals try (exfalso; assumption)
  all_goals try (refine ⟨0, ?_, ?_, ?_⟩ <;> simp <;> omega)
  all_goals refine ⟨1, ?_, ?_, ?_⟩ <;> simp <;> omega

lemma run_mid_frames (frames : List (α × α × α)) :
    ∀ s : SquatState α, s.state = .mid → s.last_state = .mid → s.rep_completed = false →
    (∀ f ∈ frames, ¬ st.up < f.2.1) →
    (Squat.run st at_ s frames).state = .mid ∧
    (Squat.run st at_ s frames).last_state = .mid ∧
    (Squat.run st at_ s frames).rep_completed = false ∧
    (Squat.run st at_ s frames).rep_count = s.rep_count ∧
    (Squat.run st at_ s frames).reps_correct = s.reps_correct ∧
    (Squat.run st at_ s frames).reps_incorrect = s.reps_incorrect ∧
    (Squat.run st at_ s frames).min_knee_angle
      = frames.foldl (fun m f => min m f.2.1) s.min_knee_angle := by
  induction frames with
  | nil =>
      intro s hs hl hc _
      exact ⟨hs, hl, hc, rfl, rfl, rfl, rfl⟩
  | cons f fs ih =>
      intro s hs hl hc hfr
      obtain ⟨gu, mh, ma, es, fb, heq⟩ :=
        @process_mid_step α _ st at_ s f.1 f.2.1 f.2.2 hs hc
          (hfr f (List.mem_cons_self f fs))
      have hrun : Squat.run st at_ s (f :: fs)
          = Squat.run st at_ (Squat.process_exercise st at_ s f.1 f.2.1 f.2.2) fs := rfl
      have h1 : (Squat.process_exercise st at_ s f.1 f.2.1 f.2.2).state = .mid := by
        rw [heq]; exact hs
      have h2 : (Squat.process_exercise st at_ s f.1 f.2.1 f.2.2).last_state = .mid := by
        rw [heq]
      have h3 : (Squat.process_exercise st at_ s f.1 f.2.1 f.2.2).rep_completed = false := by
        rw [heq]; exact hc
      obtain ⟨a1, a2, a3, a4, a5, a6, a7⟩ :=
        ih _ h1 h2 h3 (fun g hg => hfr g (List.mem_cons_of_mem f hg))
      rw [hrun]
      refine ⟨a1, a2, a3, ?_, ?_, ?_, ?_⟩
      · rw [a4, heq]
      · rw [a5, heq]
      · rw [a6, heq]
      · rw [a7, heq, List.foldl_cons]

end SquatLemmas

/-- C1 (counterexample): the claim says a repetition completes when the
minimum primary angle reached the depth target "at or below" it.  With the
default squat thresholds (depth target 90), a cycle whose minimum knee
angle is exactly 90 — recorded in `knee_angles` — does not increment
`rep_count`: the code's depth gate is the strict `min_knee_angle < depth`. -/
theorem squat_cycle_at_depth_target_not_counted :
    (Squat.run (squatStateDefaults ℚ) (squatAngleDefaults ℚ) Squat.init
        [(100, 110, 100), (100, 90, 100), (100, 160, 100)]).rep_count = 0 ∧
    (Squat.run (squatStateDefaults ℚ) (squatAngleDefaults ℚ) Squat.init
        [(100, 110, 100), (100, 90, 100), (100, 160, 100)]).knee_angles = [90] ∧
    (squatStateDefaults ℚ).depth = 90 := by
  decide

/-- C1 (amended): for every Up→Mid→Up cycle of the squat state machine,
the repetition is counted (`rep_count` incremented by one over the cycle)
if and only if the minimum primary (knee) angle reached during the cycle
was strictly below the configured depth target; in particular a cycle
whose minimum never drops below the depth target leaves `rep_count`
unchanged, and `min_knee_angle` is reset to 180 at the Mid→Up
transition. -/
theorem squat_cycle_depth_gate {α : Type} [LinearOrderedField α]
    (st : SquatStateThresh α) (at_ : SquatAngleThresh α) (s₀ : SquatState α)
    (f₀ fend : α × α × α) (mids : List (α × α × α))
    (hstate : s₀.state = .up) (hrc : s₀.rep_completed = false)
    (hmin : s₀.min_knee_angle = 180)
    (hf₀ : f₀.2.1 < st.mid) (hmids : ∀ f ∈ mids, ¬ st.up < f.2.1)
    (hfend : st.up < fend.2.1) :
    (Squat.run st at_ s₀ (f₀ :: mids ++ [fend])).rep_count
        = s₀.rep_count
          + (if mids.foldl (fun m f => min m f.2.1) (min 180 f₀.2.1) < st.depth
             then 1 else 0) ∧
    (Squat.run st at_ s₀ (f₀ :: mids ++ [fend])).state = .up ∧
    (Squat.run st at_ s₀ (f₀ :: mids ++ [fend])).min_knee_angle = 180 ∧
    (Squat.run st at_ s₀ (f₀ :: mids ++ [fend])).rep_completed = false := by
  obtain ⟨gu, mh, ma, es, fb, h0⟩ :=
    @process_entry_step α _ st at_ s₀ f₀.1 f₀.2.1 f₀.2.2 hstate hrc hf₀
  have e1 : Squat.run st at_ s₀ (f₀ :: mids ++ [fend])
      = Squat.run st at_ (Squat.process_exercise st at_ s₀ f₀.1 f₀.2.1 f₀.2.2)
          (mids ++ [fend]) := rfl
  have h1 : (Squat.process_exercise st at_ s₀ f₀.1 f₀.2.1 f₀.2.2).state = .mid := by
    rw [h0]
  have h2 : (Squat.process_exercise st at_ s₀ f₀.1 f₀.2.1 f₀.2.2).last_state = .mid := by
    rw [h0]
  have h3 : (Squat.process_exercise st at_ s₀ f₀.1 f₀.2.1 f₀.2.2).rep_completed = false := by
    rw [h0]; exact hrc
  have hPmin : (Squat.process_exercise st at_ s₀ f₀.1 f₀.2.1 f₀.2.2).min_knee_angle
      = min 180 f₀.2.1 := by
    rw [h0]; show min s₀.min_knee_angle f₀.2.1 = min 180 f₀.2.1; rw [hmin]
  obtain ⟨a1, a2, a3, a4, a5, a6, a7⟩ :=
    @run_mid_frames α _ st at_ mids _ h1 h2 h3 hmids
  have hMmin :
      (Squat.run st at_ (Squat.process_exercise st at_ s₀ f₀.1 f₀.2.1 f₀.2.2)
          mids).min_knee_angle
        = mids.foldl (fun m f => min m f.2.1) (min 180 f₀.2.1) := by
    rw [a7, hPmin]
  have hMcount :
      (Squat.run st at_ (Squat.process_exercise st at_ s₀ f₀.1 f₀.2.1 f₀.2.2)
          mids).rep_count = s₀.rep_count := by
    rw [a4, h0]
  have e2 : Squat.run st at_ s₀ (f₀ :: mids ++ [fend])
      = Squat.process_exercise st at_
          (Squat.run st at_ (Squat.process_exercise st at_ s₀ f₀.1 f₀.2.1 f₀.2.2) mids)
          fend.1 fend.2.1 fend.2.2 := by
    rw [e1]
    simp [Squat.run, List.foldl_append]
  by_cases hd :
      (Squat.run st at_ (Squat.process_exercise st at_ s₀ f₀.1 f₀.2.1 f₀.2.2)
        mids).min_knee_angle < st.depth
  · have hexit := @process_exit_complete α _ st at_ _
      fend.1 fend.2.1 fend.2.2 a1 a2 hfend hd
    have hcond : mids.foldl (fun m f => min m f.2.1) (min 180 f₀.2.1) < st.depth := by
      rw [← hMmin]; exact hd
    rw [e2, hexit, if_pos hcond]
    refine ⟨?_, rfl, rfl, rfl⟩
    show (Squat.run st at_ _ mids).rep_count + 1 = s₀.rep_count + 1
    rw [hMcount]
  · have hexit := @process_exit_incomplete α _ st at_ _
      fend.1 fend.2.1 fend.2.2 a1 a3 hfend hd
    have hcond : ¬ mids.foldl (fun m f => min m f.2.1) (min 180 f₀.2.1) < st.depth := by
      rw [← hMmin]; exact hd
    rw [e2, hexit, if_neg hcond]
    refine ⟨?_, rfl, rfl, ?_⟩
    · show (Squat.run st at_ _ mids).rep_count = s₀.rep_count + 0
      rw [hMcount]
      omega
    · exact a3

/-- C1 (witness): a concrete cycle under the default thresholds reaching
minimum knee angle 85 < 90 is counted. -/
theorem squat_cycle_depth_gate_witness :
    (Squat.run (squatStateDefaults ℚ) (squatAngleDefaults ℚ) Squat.init
        (((100 : ℚ), (110 : ℚ), (100 : ℚ)) :: [((100 : ℚ), (85 : ℚ), (100 : ℚ))]
          ++ [((100 : ℚ), (160 : ℚ), (100 : ℚ))])).rep_count
        = (Squat.init : SquatState ℚ).rep_count
          + (if [((100 : ℚ), (85 : ℚ), (100 : ℚ))].foldl (fun m f => min m f.2.1)
                  (min (180 : ℚ) 110) < (squatStateDefaults ℚ).depth
             then 1 else 0) ∧
    (Squat.run (squatStateDefaults ℚ) (squatAngleDefaults ℚ) Squat.init
        (((100 : ℚ), (110 : ℚ), (100 : ℚ)) :: [((100 : ℚ), (85 : ℚ), (100 : ℚ))]
          ++ [((100 : ℚ), (160 : ℚ), (100 : ℚ))])).state = .up ∧
    (Squat.run (squatStateDefaults ℚ) (squatAngleDefaults ℚ) Squat.init
        (((100 : ℚ), (110 : ℚ), (100 : ℚ)) :: [((100 : ℚ), (85 : ℚ), (100 : ℚ))]
          ++ [((100 : ℚ), (160 : ℚ), (100 : ℚ))])).min_knee_angle = 180 ∧
    (Squat.run (squatStateDefaults ℚ) (squatAngleDefaults ℚ) Squat.init
        (((100 : ℚ), (110 : ℚ), (100 : ℚ)) :: [((100 : ℚ), (85 : ℚ), (100 : ℚ))]
          ++ [((100 : ℚ), (160 : ℚ), (100 : ℚ))])).rep_completed = false :=
  squat_cycle_depth_gate (squatStateDefaults ℚ) (squatAngleDefaults ℚ) Squat.init
    ((100 : ℚ), (110 : ℚ), (100 : ℚ)) ((100 : ℚ), (160 : ℚ), (100 : ℚ))
    [((100 : ℚ), (85 : ℚ), (100 : ℚ))]
    rfl rfl rfl (by norm_num [squatStateDefaults])
    (by
      intro f hf
      simp only [List.mem_singleton] at hf
      subst hf
      norm_num [squatStateDefaults])
    (by norm_num [squatStateDefaults])

/-- C2 (code bug): after a repetition completes with a form error, the
error label is still in `rep_errors` while the machine is already in the
`Mid` phase of the next repetition — `clear_rep_errors` runs only after
`rep_completed` has been reset to `false`, so the set is never cleared. -/
theorem squat_rep_errors_never_cleared :
    (Squat.run (squatStateDefaults ℚ) (squatAngleDefaults ℚ) Squat.init
        [(50, 110, 100), (50, 80, 100), (50, 160, 100), (50, 110, 100)]).rep_count = 1 ∧
    (Squat.run (squatStateDefaults ℚ) (squatAngleDefaults ℚ) Squat.init
        [(50, 110, 100), (50, 80, 100), (50, 160, 100), (50, 110, 100)]).state = .mid ∧
    "Maitain more upright position" ∈
      (Squat.run (squatStateDefaults ℚ) (squatAngleDefaults ℚ) Squat.init
        [(50, 110, 100), (50, 80, 100), (50, 160, 100), (50, 110, 100)]).rep_errors := by
  decide

/-- C3: over any sequence of processed frames, `rep_count` never
decreases, and the invariant `rep_count = reps_correct + reps_incorrect`
is preserved (each completed rep increments `rep_count` and exactly one of
the two classification counters). -/
theorem squat_rep_count_invariant {α : Type} [LinearOrderedField α]
    (st : SquatStateThresh α) (at_ : SquatAngleThresh α)
    (s : SquatState α) (frames : List (α × α × α))
    (h : s.rep_count = s.reps_correct + s.reps_incorrect) :
    s.rep_count ≤ (Squat.run st at_ s frames).rep_count ∧
    (Squat.run st at_ s frames).rep_count
      = (Squat.run st at_ s frames).reps_correct
        + (Squat.run st at_ s frames).reps_incorrect := by
  induction frames generalizing s with
  | nil => exact ⟨le_refl _, h⟩
  | cons f fs ih =>
      obtain ⟨k, hk, h1, h2⟩ := @counts_step α _ st at_ s f.1 f.2.1 f.2.2
      obtain ⟨m1, m2⟩ :=
        ih (Squat.process_exercise st at_ s f.1 f.2.1 f.2.2) (by omega)
      exact ⟨le_trans (by omega) m1, m2⟩

/-- C3 (witness): the invariant instantiated on a concrete one-rep
session from the initial state. -/
theorem squat_rep_count_invariant_witness :
    (Squat.init : SquatState ℚ).rep_count ≤
      (Squat.run (squatStateDefaults ℚ) (squatAngleDefaults ℚ) Squat.init
        [(100, 110, 100), (100, 80, 100), (100, 160, 100)]).rep_count ∧
    (Squat.run (squatStateDefaults ℚ) (squatAngleDefaults ℚ) Squat.init
        [(100, 110, 100), (100, 80, 100), (100, 160, 100)]).rep_count
      = (Squat.run (squatStateDefaults ℚ) (squatAngleDefaults ℚ) Squat.init
          [(100, 110, 100), (100, 80, 100), (100, 160, 100)]).reps_correct
        + (Squat.run (squatStateDefaults ℚ) (squatAngleDefaults ℚ) Squat.init
            [(100, 110, 100), (100, 80, 100), (100, 160, 100)]).reps_incorrect :=
  squat_rep_count_invariant (squatStateDefaults ℚ) (squatAngleDefaults ℚ) Squat.init
    [(100, 110, 100), (100, 80, 100), (100, 160, 100)] rfl

/-- C5 (counterexample): repetition finalization happens on the same
frame as the Mid→Up transition, not one frame after `rep_completed`
becomes true: before the transition frame `rep_completed` is still false
and `rep_count` is 0, and after processing the transition frame itself
`rep_count` is already 1. -/
theorem squat_finalize_same_frame :
    (Squat.run (squatStateDefaults ℚ) (squatAngleDefaults ℚ) Squat.init
        [(100, 110, 100), (100, 80, 100)]).rep_completed = false ∧
    (Squat.run (squatStateDefaults ℚ) (squatAngleDefaults ℚ) Squat.init
        [(100, 110, 100), (100, 80, 100)]).rep_count = 0 ∧
    (Squat.run (squatStateDefaults ℚ) (squatAngleDefaults ℚ) Squat.init
        [(100, 110, 100), (100, 80, 100), (100, 160, 100)]).rep_count = 1 := by
  decide

/-- C5 (amended): finalization (`rep_count += 1`, classification by
`rep_errors` emptiness) happens on the very frame of the Mid→Up
transition — `last_state` still holds the previous frame's `Mid`, so the
gate passes immediately; the completing frame's own form checks do not run
(`rep_errors` and `is_going_up` are untouched), and `rep_errors` is not
cleared at finalization. -/
theorem squat_finalize_on_transition_frame {α : Type} [LinearOrderedField α]
    (st : SquatStateThresh α) (at_ : SquatAngleThresh α) (s : SquatState α)
    (hip knee ankle : α)
    (hs : s.state = .mid) (hl : s.last_state = .mid)
    (hk : st.up < knee) (hd : s.min_knee_angle < st.depth) :
    (Squat.process_exercise st at_ s hip knee ankle).rep_count = s.rep_count + 1 ∧
    (Squat.process_exercise st at_ s hip knee ankle).reps_correct
        + (Squat.process_exercise st at_ s hip knee ankle).reps_incorrect
      = s.reps_correct + s.reps_incorrect + 1 ∧
    (Squat.process_exercise st at_ s hip knee ankle).rep_completed = false ∧
    (Squat.process_exercise st at_ s hip knee ankle).rep_errors = s.rep_errors ∧
    (Squat.process_exercise st at_ s hip knee ankle).is_going_up = s.is_going_up ∧
    (Squat.process_exercise st at_ s hip knee ankle).state = .up := by
  rw [@process_exit_complete α _ st at_ s hip knee ankle hs hl hk hd]
  refine ⟨rfl, ?_, rfl, rfl, rfl, rfl⟩
  show (if s.rep_errors = [] then s.reps_correct + 1 else s.reps_correct)
      + (if s.rep_errors = [] then s.reps_incorrect else s.reps_incorrect + 1)
    = s.reps_correct + s.reps_incorrect + 1
  by_cases he : s.rep_errors = [] <;> simp [he] <;> omega

/-- C5 (witness): a concrete transition frame finalizes the repetition. -/
theorem squat_finalize_on_transition_frame_witness :
    (Squat.process_exercise (squatStateDefaults ℚ) (squatAngleDefaults ℚ)
        { Squat.init with
            state := .mid
            last_state := .mid
            min_knee_angle := 80 } 100 160 100).rep_count
      = { Squat.init with
            state := .mid
            last_state := .mid
            min_knee_angle := (80 : ℚ) }.rep_count + 1 ∧
    (Squat.process_exercise (squatStateDefaults ℚ) (squatAngleDefaults ℚ)
        { Squat.init with
            state := .mid
            last_state := .mid
            min_knee_angle := 80 } 100 160 100).reps_correct
        + (Squat.process_exercise (squatStateDefaults ℚ) (squatAngleDefaults ℚ)
            { Squat.init with
                state := .mid
                last_state := .mid
                min_knee_angle := 80 } 100 160 100).reps_incorrect
      = { Squat.init with
            state := .mid
            last_state := .mid
            min_knee_angle := (80 : ℚ) }.reps_correct
        + { Squat.init with
              state := .mid
              last_state := .mid
              min_knee_angle := (80 : ℚ) }.reps_incorrect + 1 ∧
    (Squat.process_exercise (squatStateDefaults ℚ) (squatAngleDefaults ℚ)
        { Squat.init with
            state := .mid
            last_state := .mid
            min_knee_angle := 80 } 100 160 100).rep_completed = false ∧
    (Squat.process_exercise (squatStateDefaults ℚ) (squatAngleDefaults ℚ)
        { Squat.init with
            state := .mid
            last_state := .mid
            min_knee_angle := 80 } 100 160 100).rep_errors
      = { Squat.init with
            state := .mid
            last_state := .mid
            min_knee_angle := (80 : ℚ) }.rep_errors ∧
    (Squat.process_exercise (squatStateDefaults ℚ) (squatAngleDefaults ℚ)
        { Squat.init with
            state := .mid
            last_state := .mid
            min_knee_angle := 80 } 100 160 100).is_going_up
      = { Squat.init with
            state := .mid
            last_state := .mid
            min_knee_angle := (80 : ℚ) }.is_going_up ∧
    (Squat.process_exercise (squatStateDefaults ℚ) (squatAngleDefaults ℚ)
        { Squat.init with
            state := .mid
            last_state := .mid
            min_knee_angle := 80 } 100 160 100).state = .up :=
  squat_finalize_on_transition_frame (squatStateDefaults ℚ) (squatAngleDefaults ℚ)
    { Squat.init with
        state := .mid
        last_state := .mid
        min_knee_angle := 80 } 100 160 100
    rfl rfl (by norm_num [squatStateDefaults]) (by norm_num [squatStateDefaults])

/-- C4: whenever the required-landmark list is empty or unspecified, or
some required landmark is missing or has visibility below 0.5, landmark
validation returns false and frame processing leaves the whole exercise
state (in particular `state`, `last_state`, `rep_count`, `rep_errors` and
`min_knee_angle`) unchanged: no transition and no form evaluation. -/
theorem validation_fails_closed {α : Type} [LinearOrderedField α]
    (st : SquatStateThresh α) (at_ : SquatAngleThresh α)
    (landmarks : List (Landmark α)) (required : Option (List ℕ))
    (s : SquatState α) (hip knee ankle : α)
    (h : required = none ∨ required = some [] ∨
      ∃ l i, required = some l ∧ i ∈ l ∧
        ∀ lm, landmarks[i]? = some lm → lm.visibility < 0.5) :
    validate_required_landmarks landmarks required = false ∧
    Squat.process_frame st at_ landmarks required s hip knee ankle = s := by
  have hv : validate_required_landmarks landmarks required = false := by
    rcases h with h | h | ⟨l, i, hreq, hi, hbad⟩
    · rw [h]; rfl
    · rw [h]; rfl
    · rw [hreq]
      cases l with
      | nil => rfl
      | cons a as =>
          simp only [validate_required_landmarks]
          have hnot : ¬ ((a :: as).all
              (fun i => match landmarks[i]? with
                | none => false
                | some lm => !(lm.visibility < 0.5)) = true) := by
            rw [List.all_eq_true]
            intro hall
            have hp := hall i hi
            cases hlm : landmarks[i]? with
            | none => rw [hlm] at hp; exact Bool.false_ne_true hp
            | some lm =>
                rw [hlm] at hp
                simp only [Bool.not_eq_true', decide_eq_false_iff_not] at hp
                exact hp (hbad lm hlm)
          exact Bool.eq_false_iff.2 hnot
  refine ⟨hv, ?_⟩
  simp [Squat.process_frame, hv]

/-- C4 (witness): a frame whose only required landmark has visibility 0.3
is rejected and leaves the state untouched. -/
theorem validation_fails_closed_witness :
    validate_required_landmarks
        [({ x := 0, y := 0, z := 0, visibility := 3/10 } : Landmark ℚ)] (some [0]) = false ∧
    Squat.process_frame (squatStateDefaults ℚ) (squatAngleDefaults ℚ)
        [({ x := 0, y := 0, z := 0, visibility := 3/10 } : Landmark ℚ)] (some [0])
        Squat.init 100 110 100 = Squat.init :=
  validation_fails_closed (squatStateDefaults ℚ) (squatAngleDefaults ℚ)
    [{ x := 0, y := 0, z := 0, visibility := 3/10 }] (some [0]) Squat.init 100 110 100
    (Or.inr (Or.inr ⟨[0], 0, rfl, by simp, by
      intro lm hlm
      simp only [List.getElem?_cons_zero, Option.some.injEq] at hlm
      subst hlm
      norm_num⟩))

/-- C7 (code bug): the squat ascent-phase check does add "Squat not deep
enough" when ascending in Mid with the running minimum above the depth
target, but the core push-up variant never adds "Not deep enough" on any
frame: its ascent branch is an `elif` behind `if self.state == "mid"` and
is therefore unreachable.  Here a push-up frame in Mid with
`is_going_up = true` and minimum elbow angle 120 > 90 produces no error. -/
theorem pushup_ascent_depth_check_dead :
    "Squat not deep enough" ∈
      (Squat.check_squat_form (squatStateDefaults ℚ) (squatAngleDefaults ℚ)
        { Squat.init with
            state := .mid
            last_state := .mid
            min_knee_angle := 95
            is_going_up := true } 70 96 100).1.rep_errors ∧
    (Pushup.process_exercise (pushupStateDefaults ℚ) (pushupAngleDefaults ℚ)
        { Pushup.init with
            state := .mid
            last_state := .mid
            min_elbow_angle := 120
            is_going_up := true } 121 170).rep_errors = [] ∧
    (Pushup.process_exercise (pushupStateDefaults ℚ) (pushupAngleDefaults ℚ)
        { Pushup.init with
            state := .mid
            last_state := .mid
            min_elbow_angle := 120
            is_going_up := true } 121 170).is_going_up = true ∧
    (Pushup.process_exercise (pushupStateDefaults ℚ) (pushupAngleDefaults ℚ)
        { Pushup.init with
            state := .mid
            last_state := .mid
            min_elbow_angle := 120
            is_going_up := true } 121 170).min_elbow_angle > 90 ∧
    (Pushup.process_exercise (pushupStateDefaults ℚ) (pushupAngleDefaults ℚ)
        { Pushup.init with
            state := .mid
            last_state := .mid
            min_elbow_angle := 120
            is_going_up := true } 121 170).state = .mid := by
  decide

/-- C9 (counterexample): the core `Squat.generate_summary` does not omit
empty angle entries — with no completed repetitions (all three sample
lists empty) the `sum(...) / len(...)` computation raises a
`ZeroDivisionError`, modelled as `none`. -/
theorem squat_generate_summary_empty_raises :
    Squat.generate_summary_angles (⟨[], [], []⟩ : SquatMins ℚ) = none := rfl

/-- C9 (amended): `ExerciseSummary.calculate_angle_statistics` produces an
entry for an angle name exactly when a nonempty sample list was recorded
under that name — empty lists are omitted and never raise — whereas the
core `Squat.generate_summary` path divides by the list length and raises
(`none`) when the lists are empty. -/
theorem angle_statistics_empty_list_handling :
    (∀ (vals : List (String × List ℝ)) (n : String),
        (∃ stats, (n, stats) ∈ calculate_angle_statistics vals) ↔
          ∃ xs, (n, xs) ∈ vals ∧ xs ≠ []) ∧
    Squat.generate_summary_angles (⟨[], [], []⟩ : SquatMins ℝ) = none := by
  constructor
  · intro vals n
    constructor
    · rintro ⟨stats, hst⟩
      obtain ⟨p, hp, hf⟩ := List.mem_filterMap.1 hst
      obtain ⟨m, xs⟩ := p
      cases xs with
      | nil => exact Option.noConfusion hf
      | cons x xs' =>
          have hf' : ((m, angleStats x xs') : String × AngleStats) = (n, stats) :=
            Option.some.inj hf
          have hmn : m = n := (Prod.ext_iff.1 hf').1
          subst hmn
          exact ⟨x :: xs', hp, by simp⟩
    · rintro ⟨xs, hmem, hne⟩
      cases xs with
      | nil => exact absurd rfl hne
      | cons x xs' =>
          exact ⟨angleStats x xs', List.mem_filterMap.2 ⟨(n, x :: xs'), hmem, rfl⟩⟩
  · rfl

section DictBridge

variable {α : Type} [LinearOrderedField α]

lemma update_squat_state_dict_eq (ST : Dict α) (c : SquatStateThresh α)
    (s : SquatState α) (knee : α)
    (hm : dget ST "mid" = some c.mid) (hup : dget ST "up" = some c.up)
    (hd : dget ST "depth" = some c.depth) :
    Squat.update_squat_state_dict ST s knee
      = some (Squat.update_squat_state c s knee) := by
  cases hss : s.state
  case up =>
    by_cases hk : knee < c.mid <;>
      simp [Squat.update_squat_state_dict, Squat.update_squat_state, hss, hm, hk]
  case mid =>
    by_cases hk : c.up < knee
    · by_cases hmin : s.min_knee_angle < c.depth <;>
        simp [Squat.update_squat_state_dict, Squat.update_squat_state, hss, hup, hd, hk, hmin]
    · simp [Squat.update_squat_state_dict, Squat.update_squat_state, hss, hup, hk]

set_option maxHeartbeats 1000000 in
lemma check_squat_form_dict_eq (ST AT : Dict α) (c : SquatStateThresh α)
    (ca : SquatAngleThresh α) (s : SquatState α) (hip knee ankle : α)
    (hd : dget ST "depth" = some c.depth)
    (hh1 : dget AT "hip_min" = some ca.hip_min)
    (hh2 : dget AT "hip_max" = some ca.hip_max)
    (ha : dget AT "ankle_min" = some ca.ankle_min)
    (hmd : dget AT "min_depth" = some ca.min_depth) :
    Squat.check_squat_form_dict ST AT s hip knee ankle
      = some (Squat.check_squat_form c ca s hip knee ankle) := by
  simp only [Squat.check_squat_form_dict, Squat.check_squat_form]
  generalize Squat.track_min s hip knee ankle = t
  by_cases hts : t.state = .mid
  · by_cases hkd : knee < c.depth
    · by_cases hh : hip < ca.hip_min
      · by_cases hank : ankle < ca.ankle_min <;> by_cases hknd : knee < ca.min_depth <;>
          simp [hts, hkd, hh, hank, hknd, hd, hh1, ha, hmd]
      · by_cases hhx : hip > ca.hip_max <;> by_cases hank : ankle < ca.ankle_min <;>
          by_cases hknd : knee < ca.min_depth <;>
          simp [hts, hkd, hh, hhx, hank, hknd, hd, hh1, hh2, ha, hmd]
    · by_cases hgu : t.is_going_up
      · by_cases hmin : t.min_knee_angle > c.depth <;>
          simp [hts, hkd, hgu, hmin, hd]
      · simp [hts, hkd, hgu, hd]
  · simp [hts]

lemma process_exercise_dict_eq (ST AT : Dict α) (c : SquatStateThresh α)
    (ca : SquatAngleThresh α) (s : SquatState α) (hip knee ankle : α)
    (hm : dget ST "mid" = some c.mid) (hup : dget ST "up" = some c.up)
    (hd : dget ST "depth" = some c.depth)
    (hh1 : dget AT "hip_min" = some ca.hip_min)
    (hh2 : dget AT "hip_max" = some ca.hip_max)
    (ha : dget AT "ankle_min" = some ca.ankle_min)
    (hmd : dget AT "min_depth" = some ca.min_depth) :
    Squat.process_exercise_dict ST AT s hip knee ankle
      = some (Squat.process_exercise c ca s hip knee ankle) := by
  have hu := update_squat_state_dict_eq ST c s knee hm hup hd
  have hc := check_squat_form_dict_eq ST AT c ca (Squat.update_squat_state c s knee)
    hip knee ankle hd hh1 hh2 ha hmd
  simp only [Squat.process_exercise_dict, Squat.process_exercise, hu, hc, Option.some_bind]
  by_cases h2 : (Squat.update_squat_state c s knee).state = .mid <;> simp [h2, hc]

end DictBridge

/-- C8 (counterexample): with an empty thresholds mapping (as the claim's
"config store returns an empty thresholds mapping"), frame processing does
not complete: the first rule's dict access `STATE_THRESH["mid"]` raises a
`KeyError` (`none`), rather than the rule being skipped. -/
theorem squat_empty_thresholds_raise :
    Squat.process_exercise_dict ([] : Dict ℚ) [] Squat.init 100 110 100 = none := by
  decide

/-- C8 (amended): a threshold key absent from the configuration is not
"rule disabled": the subscripting raises a `KeyError` that propagates out
of frame processing (second conjunct, a dict lacking the "mid" key).  With
every threshold key present — as with the `DEFAULT_CONFIG` dicts the
`ConfigManager` hands out — every frame is processed without any
exception and agrees with the total-threshold semantics (first
conjunct). -/
theorem squat_threshold_key_handling :
    (∀ (s : SquatState ℚ) (hip knee ankle : ℚ),
        Squat.process_exercise_dict squatStateDict squatAngleDict s hip knee ankle
          = some (Squat.process_exercise (squatStateDefaults ℚ) (squatAngleDefaults ℚ)
              s hip knee ankle)) ∧
    Squat.process_exercise_dict [("up", (150 : ℚ))] [] Squat.init 100 110 100 = none := by
  constructor
  · intro s hip knee ankle
    exact process_exercise_dict_eq _ _ _ _ _ _ _ _ rfl rfl rfl rfl rfl rfl rfl
  · decide

section AngleMathLemmas

open Real

lemma arctan_nonpos_of_nonpos {x : ℝ} (h : x ≤ 0) : Real.arctan x ≤ 0 :=
  (Real.arctan_strictMono.monotone h).trans_eq Real.arctan_zero

lemma arctan_pos_of_pos {x : ℝ} (h : 0 < x) : 0 < Real.arctan x :=
  Real.arctan_zero ▸ Real.arctan_strictMono h

lemma atan2_le_pi (y x : ℝ) : atan2 y x ≤ Real.pi := by
  have hpi := Real.pi_pos
  unfold atan2
  split_ifs with h1 h2 h3 h4 h5
  · have := Real.arctan_lt_pi_div_two (y / x)
    linarith
  · have hyx : y / x ≤ 0 := div_nonpos_iff.2 (Or.inl ⟨h3, h2.le⟩)
    have := arctan_nonpos_of_nonpos hyx
    linarith
  · have := Real.arctan_lt_pi_div_two (y / x)
    linarith
  · linarith
  · linarith
  · linarith

lemma neg_pi_lt_atan2 (y x : ℝ) : -Real.pi < atan2 y x := by
  have hpi := Real.pi_pos
  unfold atan2
  split_ifs with h1 h2 h3 h4 h5
  · have := Real.neg_pi_div_two_lt_arctan (y / x)
    linarith
  · have := Real.neg_pi_div_two_lt_arctan (y / x)
    linarith
  · have hyx : 0 < y / x := div_pos_iff.2 (Or.inr ⟨not_le.1 h3, h2⟩)
    have := arctan_pos_of_pos hyx
    linarith
  · linarith
  · linarith
  · linarith

lemma atan2_smul {s : ℝ} (hs : 0 < s) (y x : ℝ) : atan2 (s * y) (s * x) = atan2 y x := by
  have hdiv : s * y / (s * x) = y / x := mul_div_mul_left y x (ne_of_gt hs)
  have h1 : (0 < s * x) ↔ (0 < x) := mul_pos_iff_of_pos_left hs
  have h2 : (s * x < 0) ↔ (x < 0) :=
    ⟨fun h => by nlinarith, fun h => mul_neg_of_pos_of_neg hs h⟩
  have h3 : (0 ≤ s * y) ↔ (0 ≤ y) :=
    ⟨fun h => by nlinarith, fun h => mul_nonneg hs.le h⟩
  have h4 : (0 < s * y) ↔ (0 < y) := mul_pos_iff_of_pos_left hs
  have h5 : (s * y < 0) ↔ (y < 0) :=
    ⟨fun h => by nlinarith, fun h => mul_neg_of_pos_of_neg hs h⟩
  unfold atan2
  rw [hdiv]
  simp only [h1, h2, h3, h4, h5]

lemma atan2_neg_neg (y x : ℝ) (h : ¬(x = 0 ∧ y = 0)) :
    atan2 (-y) (-x) = atan2 y x + Real.pi ∨ atan2 (-y) (-x) = atan2 y x - Real.pi := by
  have hdiv : (-y) / (-x) = y / x := neg_div_neg_eq y x
  unfold atan2
  rcases lt_trichotomy x 0 with hx | hx | hx
  · rw [if_pos (by linarith : (0 : ℝ) < -x), hdiv,
      if_neg (by linarith : ¬ (0 : ℝ) < x), if_pos hx]
    rcases le_or_lt 0 y with hy | hy
    · rw [if_pos hy]
      right
      ring
    · rw [if_neg (not_le.2 hy)]
      left
      ring
  · subst hx
    rcases lt_trichotomy y 0 with hy | hy | hy
    · rw [if_neg (by norm_num : ¬ (0 : ℝ) < -0), if_neg (by norm_num : ¬ (-0 : ℝ) < 0),
        if_pos (by linarith : (0 : ℝ) < -y),
        if_neg (by norm_num : ¬ (0 : ℝ) < 0), if_neg (by norm_num : ¬ (0 : ℝ) < 0),
        if_neg (asymm hy), if_pos hy]
      left
      ring
    · exact absurd ⟨rfl, hy⟩ h
    · rw [if_neg (by norm_num : ¬ (0 : ℝ) < -0), if_neg (by norm_num : ¬ (-0 : ℝ) < 0),
        if_neg (by linarith : ¬ (0 : ℝ) < -y), if_pos (by linarith : -y < 0),
        if_neg (by norm_num : ¬ (0 : ℝ) < 0), if_neg (by norm_num : ¬ (0 : ℝ) < 0),
        if_pos hy]
      right
      ring
  · rw [if_neg (by linarith : ¬ (0 : ℝ) < -x), if_pos (by linarith : -x < 0), hdiv,
      if_pos hx]
    rcases le_or_lt y 0 with hy | hy
    · rw [if_pos (by linarith : (0 : ℝ) ≤ -y)]
      left
      ring
    · rw [if_neg (by linarith : ¬ (0 : ℝ) ≤ -y)]
      right
      ring

end AngleMathLemmas

lemma calculate_angle_range (a b c : ℝ × ℝ) :
    0 ≤ calculate_angle a b c ∧ calculate_angle a b c ≤ 180 := by
  have hpi := Real.pi_pos
  have h1 := atan2_le_pi (c.2 - b.2) (c.1 - b.1)
  have h2 := neg_pi_lt_atan2 (c.2 - b.2) (c.1 - b.1)
  have h3 := atan2_le_pi (a.2 - b.2) (a.1 - b.1)
  have h4 := neg_pi_lt_atan2 (a.2 - b.2) (a.1 - b.1)
  have habs : |(atan2 (c.2 - b.2) (c.1 - b.1) - atan2 (a.2 - b.2) (a.1 - b.1))
      * 180 / Real.pi| < 360 := by
    rw [abs_div, abs_mul, abs_of_pos hpi, show |(180 : ℝ)| = 180 by norm_num,
      div_lt_iff hpi]
    have hr : |atan2 (c.2 - b.2) (c.1 - b.1) - atan2 (a.2 - b.2) (a.1 - b.1)|
        < 2 * Real.pi := abs_lt.2 ⟨by linarith, by linarith⟩
    nlinarith [abs_nonneg (atan2 (c.2 - b.2) (c.1 - b.1) - atan2 (a.2 - b.2) (a.1 - b.1))]
  have hnn : 0 ≤ |(atan2 (c.2 - b.2) (c.1 - b.1) - atan2 (a.2 - b.2) (a.1 - b.1))
      * 180 / Real.pi| := abs_nonneg _
  simp only [calculate_angle]
  split_ifs with h
  · constructor <;> linarith
  · exact ⟨hnn, not_lt.1 h⟩

lemma calculate_angle_collinear (a b c : ℝ × ℝ) (t : ℝ)
    (h0 : 0 < t) (h1 : t < 1) (hac : a ≠ c)
    (hb : b = (a.1 + t * (c.1 - a.1), a.2 + t * (c.2 - a.2))) :
    calculate_angle a b c = 180 := by
  have hpi := Real.pi_pos
  have hc1 : c.1 - b.1 = (1 - t) * (c.1 - a.1) := by rw [hb]; ring
  have hc2 : c.2 - b.2 = (1 - t) * (c.2 - a.2) := by rw [hb]; ring
  have ha1 : a.1 - b.1 = t * (-(c.1 - a.1)) := by rw [hb]; ring
  have ha2 : a.2 - b.2 = t * (-(c.2 - a.2)) := by rw [hb]; ring
  have hd : ¬((c.1 - a.1) = 0 ∧ (c.2 - a.2) = 0) := by
    rintro ⟨u, v⟩
    exact hac (Prod.ext_iff.2 ⟨by linarith, by linarith⟩)
  have e1 : atan2 (c.2 - b.2) (c.1 - b.1) = atan2 (c.2 - a.2) (c.1 - a.1) := by
    rw [hc2, hc1]
    exact atan2_smul (by linarith) _ _
  have e2 : atan2 (a.2 - b.2) (a.1 - b.1) = atan2 (-(c.2 - a.2)) (-(c.1 - a.1)) := by
    rw [ha2, ha1]
    exact atan2_smul h0 _ _
  have h180 : |(-Real.pi) * 180 / Real.pi| = 180 := by
    rw [abs_div, abs_mul, abs_neg, abs_of_pos hpi, show |(180 : ℝ)| = 180 by norm_num]
    field_simp
  have h180' : |Real.pi * 180 / Real.pi| = 180 := by
    rw [abs_div, abs_mul, abs_of_pos hpi, show |(180 : ℝ)| = 180 by norm_num]
    field_simp
  simp only [calculate_angle]
  rw [e1, e2]
  rcases atan2_neg_neg (c.2 - a.2) (c.1 - a.1) hd with hpm | hpm
  · rw [hpm, show atan2 (c.2 - a.2) (c.1 - a.1)
        - (atan2 (c.2 - a.2) (c.1 - a.1) + Real.pi) = -Real.pi by ring, h180]
    norm_num
  · rw [hpm, show atan2 (c.2 - a.2) (c.1 - a.1)
        - (atan2 (c.2 - a.2) (c.1 - a.1) - Real.pi) = Real.pi by ring, h180']
    norm_num

/-- C6: `calculate_angle` always returns a value in [0, 180], and for
three collinear points with b strictly between a and c it returns exactly
180 (the absolute atan2 difference is exactly π, converted to degrees). -/
theorem calculate_angle_spec :
    (∀ a b c : ℝ × ℝ, 0 ≤ calculate_angle a b c ∧ calculate_angle a b c ≤ 180) ∧
    (∀ (a b c : ℝ × ℝ) (t : ℝ), 0 < t → t < 1 → a ≠ c →
        b = (a.1 + t * (c.1 - a.1), a.2 + t * (c.2 - a.2)) →
        calculate_angle a b c = 180) :=
  ⟨calculate_angle_range, calculate_angle_collinear⟩

/-- C6 (witness): the collinear configuration (0,0), (1,0), (2,0) gives
exactly 180 degrees, inside the range [0, 180]. -/
theorem calculate_angle_spec_witness :
    (0 ≤ calculate_angle (0, 0) (1, 0) (2, 0) ∧ calculate_angle (0, 0) (1, 0) (2, 0) ≤ 180) ∧
    calculate_angle (0, 0) (1, 0) (2, 0) = 180 :=
  ⟨calculate_angle_spec.1 (0, 0) (1, 0) (2, 0),
   calculate_angle_spec.2 (0, 0) (1, 0) (2, 0) (1 / 2) (by norm_num) (by norm_num)
     (by norm_num [Prod.ext_iff]) (by norm_num [Prod.ext_iff])⟩

lemma mem_insertErr {a e : String} {es : List String} :
    a ∈ insertErr es e ↔ a ∈ es ∨ a = e := by
  unfold insertErr
  split_ifs with h
  · exact ⟨Or.inl, fun hor => hor.elim id fun ha => ha ▸ h⟩
  · simp [List.mem_append]

lemma not_mem_insertErr {a e : String} {es : List String} (h1 : a ∉ es) (h2 : a ≠ e) :
    a ∉ insertErr es e := fun hm => (mem_insertErr.1 hm).elim h1 h2

lemma pushup_track_min_shape {α : Type} [LinearOrderedField α]
    (s : PushupState α) (elbow hip : α) :
    ∃ gu me mh,
      Pushup.track_min s elbow hip =
        { s with
            is_going_up := gu
            min_elbow_angle := me
            min_hip_angle := mh } := by
  unfold Pushup.track_min
  split_ifs <;> exact ⟨_, _, _, rfl⟩

/-- C10: under the default push-up configuration `hip_low` is 190, and for
any hip-low threshold of at least 180 the "Hip too low" error can never be
added by the form check when the hip angle comes from `calculate_angle`,
because `calculate_angle` never exceeds 180 and the branch needs a
strictly greater hip angle. -/
theorem pushup_hip_too_low_unreachable :
    (pushupAngleDefaults ℝ).hip_low = 190 ∧
    ∀ (at_ : PushupAngleThresh ℝ), 180 ≤ at_.hip_low →
      ∀ (s : PushupState ℝ) (elbow : ℝ) (pa pb pc : ℝ × ℝ),
        "Hip too low" ∉ s.rep_errors →
        "Hip too low" ∉
          (Pushup.check_pushup_form at_ s elbow (calculate_angle pa pb pc)).1.rep_errors := by
  refine ⟨rfl, ?_⟩
  intro at_ hlow s elbow pa pb pc hnot
  have hle : calculate_angle pa pb pc ≤ 180 := (calculate_angle_range pa pb pc).2
  have hngt : ¬ at_.hip_low < calculate_angle pa pb pc := not_lt.2 (hle.trans hlow)
  obtain ⟨gu, me, mh, ht⟩ := pushup_track_min_shape s elbow (calculate_angle pa pb pc)
  simp only [Pushup.check_pushup_form, ht]
  split_ifs <;>
    first
      | exact hnot
      | exact not_mem_insertErr hnot (by decide)
      | exact not_mem_insertErr (not_mem_insertErr hnot (by decide)) (by decide)
      | exact absurd (by assumption) hngt

/-- C10 (witness): with the default thresholds, a frame whose hip angle is
computed by `calculate_angle` cannot introduce "Hip too low". -/
theorem pushup_hip_too_low_unreachable_witness :
    "Hip too low" ∉
      (Pushup.check_pushup_form (pushupAngleDefaults ℝ) Pushup.init 100
        (calculate_angle (0, 0) (1, 0) (2, 0))).1.rep_errors :=
  pushup_hip_too_low_unreachable.2 (pushupAngleDefaults ℝ)
    (by norm_num [pushupAngleDefaults]) Pushup.init 100 (0, 0) (1, 0) (2, 0)
    (List.not_mem_nil _)
